import Mathlib

/-!
Verification of the WallpaperApp repository (src/WallpaperApp.py) against its
natural-language specification.

The Python program is shallowly embedded: JSON values produced by the json
module become the inductive type Json (numbers are modelled as integers; no
claim depends on fractional numeric values), the settings file on disk is
modelled by the outcome of reading it (missing / unreadable / parsed value),
the registry and the filesystem are explicit parameters, and every dialog the
program shows is recorded in an explicit list.
-/

namespace WallpaperApp

/-- JSON values as produced by Python's json.load: objects are association
lists in file order (Python dicts preserve insertion order, json.load keeps
the last duplicate key, so parsed objects have distinct keys in order). -/
inductive Json where
  | null : Json
  | bool : Bool → Json
  | num : Int → Json
  | str : String → Json
  | arr : List Json → Json
  | obj : List (String × Json) → Json

/-- The settings file as seen through open + json.load: the file may be
absent (os.path.exists false), unreadable or malformed (open or json.load
raises), or it parses to a JSON value. -/
inductive FileState where
  | missing : FileState
  | corrupt : FileState
  | content : Json → FileState

/-- Modal dialogs shown via tkinter.messagebox, identified by their title. -/
inductive Dialog where
  | info : String → Dialog
  | warning : String → Dialog
  | error : String → Dialog
  | askYesNo : String → Dialog
deriving DecidableEq

/-- Python `k in data` for a dict: key membership. -/
def dictHasKey (kvs : List (String × Json)) (k : String) : Bool :=
  kvs.any (fun kv => kv.1 == k)

/-- Python `data[k]` read on a dict: first binding of the key (parsed dicts
have distinct keys). -/
def dictGet? (kvs : List (String × Json)) (k : String) : Option Json :=
  (kvs.find? (fun kv => kv.1 == k)).map Prod.snd

/-- Python `data[k] = v` on a dict: replace the value in place if the key is
present, otherwise append the binding at the end (insertion order). -/
def dictSet (kvs : List (String × Json)) (k : String) (v : Json) : List (String × Json) :=
  match kvs with
  | [] => [(k, v)]
  | kv :: rest => if kv.1 == k then (k, v) :: rest else kv :: dictSet rest k v

/-- DEFAULT_SETTINGS from the source, in its literal order. -/
def DEFAULT_SETTINGS : List (String × Json) :=
  [("last_wallpaper", Json.str ""), ("style", Json.str "stretch"), ("favorites", Json.arr [])]

/-- One iteration of the backfill loop in load_settings:
`if k not in data: data[k] = v`. -/
def backfillStep (kvs : List (String × Json)) (kv : String × Json) : List (String × Json) :=
  if dictHasKey kvs kv.1 then kvs else kvs ++ [kv]

/-- The backfill loop `for k, v in DEFAULT_SETTINGS.items(): ...` in
load_settings, run on a parsed dict. -/
def backfill (kvs : List (String × Json)) : List (String × Json) :=
  DEFAULT_SETTINGS.foldl backfillStep kvs

/-- Python substring test `needle in hay` on strings. -/
def strContains (hay needle : String) : Bool :=
  (List.range (hay.data.length + 1)).any (fun i => needle.data.isPrefixOf (hay.data.drop i))

/-- When json.load returns a non-dict string, the loop's `k not in data` is a
substring test; the first absent key makes `data[k] = v` raise TypeError
(caught by the bare except), so the string is returned unchanged exactly when
every default key occurs in it as a substring. -/
def allKeysInStr (s : String) : Bool :=
  DEFAULT_SETTINGS.all (fun kv => strContains s kv.1)

/-- When json.load returns a list, `k not in data` is element membership
(a string key only equals a string element); the first absent key makes
`data[k] = v` raise TypeError, so the list is returned unchanged exactly when
every default key is an element. -/
def allKeysInArr (xs : List Json) : Bool :=
  DEFAULT_SETTINGS.all (fun kv => xs.any (fun j =>
    match j with
    | Json.str t => t == kv.1
    | _ => false))

/-- load_settings: reads the settings file inside try/except. A missing file
falls through to the default; any exception (unreadable file, malformed JSON,
or a TypeError from indexing a non-dict value) yields a fresh copy of the
defaults; a parsed dict is backfilled with the missing default keys. On a
parsed int/float/bool/None the membership test itself raises TypeError. -/
def load_settings : FileState → Json
  | FileState.missing => Json.obj DEFAULT_SETTINGS
  | FileState.corrupt => Json.obj DEFAULT_SETTINGS
  | FileState.content j =>
    match j with
    | Json.obj kvs => Json.obj (backfill kvs)
    | Json.str s => if allKeysInStr s then Json.str s else Json.obj DEFAULT_SETTINGS
    | Json.arr xs => if allKeysInArr xs then Json.arr xs else Json.obj DEFAULT_SETTINGS
    | _ => Json.obj DEFAULT_SETTINGS

/-- save_settings on its success path: json.dump(settings, f, indent=2)
replaces the file's content with the record. The except branch only shows a
"Save Error" dialog; round-trip claims quantify over successful writes. -/
def save_settings (r : Json) : FileState :=
  FileState.content r

/-- Two spaces of indentation per level, as json.dump(..., indent=2). -/
def spaces (n : Nat) : String :=
  String.mk (List.replicate n ' ')

/-- Lowercase hexadecimal digit, as produced by Python's \uXXXX escapes. -/
def hexDigitChar (n : Nat) : Char :=
  if n < 10 then Char.ofNat (48 + n % 16) else Char.ofNat (87 + n % 16)

/-- A single \uXXXX escape for a code unit below 0x10000. -/
def uEscape4 (n : Nat) : String :=
  "\\u" ++ String.mk [hexDigitChar (n / 4096 % 16), hexDigitChar (n / 256 % 16),
    hexDigitChar (n / 16 % 16), hexDigitChar (n % 16)]

/-- json.dump's default (ensure_ascii) escaping of one character: the short
escapes for quote, backslash and the five control shortcuts, \uXXXX for other
characters outside the printable ASCII range 0x20..0x7e, surrogate pairs
above 0xFFFF. -/
def escapeChar (c : Char) : String :=
  if c = '"' then "\\\""
  else if c = '\\' then "\\\\"
  else if c = '\x08' then "\\b"
  else if c = '\x0c' then "\\f"
  else if c = '\n' then "\\n"
  else if c = '\x0d' then "\\r"
  else if c = '\t' then "\\t"
  else if c.toNat < 0x20 ∨ 0x7e < c.toNat then
    if c.toNat < 0x10000 then uEscape4 c.toNat
    else
      uEscape4 (0xd800 + (c.toNat - 0x10000) / 0x400) ++
        uEscape4 (0xdc00 + (c.toNat - 0x10000) % 0x400)
  else String.singleton c

/-- json.dump's escaping of a whole string (without the surrounding quotes). -/
def escapeStr (s : String) : String :=
  String.join (s.data.map escapeChar)

mutual
/-- The byte content json.dump(value, f, indent=2) writes for a value at the
given indentation level: items separated by ",\n" plus indentation, keys
followed by ": ", empty containers printed compactly. -/
def dumpJson (ind : Nat) : Json → String
  | Json.null => "null"
  | Json.bool b => cond b "true" "false"
  | Json.num n => toString n
  | Json.str s => "\"" ++ escapeStr s ++ "\""
  | Json.arr [] => "[]"
  | Json.arr (x :: xs) =>
    "[\n" ++ spaces (ind + 2) ++ dumpJson (ind + 2) x ++ dumpArrRest (ind + 2) xs ++
      "\n" ++ spaces ind ++ "]"
  | Json.obj [] => "\x7b\x7d"
  | Json.obj (kv :: kvs) =>
    "\x7b\n" ++ spaces (ind + 2) ++ dumpEntry (ind + 2) kv ++ dumpObjRest (ind + 2) kvs ++
      "\n" ++ spaces ind ++ "\x7d"

/-- One object entry: quoted escaped key, ": ", then the value. -/
def dumpEntry (ind : Nat) : String × Json → String
  | (k, v) => "\"" ++ escapeStr k ++ "\": " ++ dumpJson ind v

/-- Remaining array items after the first. -/
def dumpArrRest (ind : Nat) : List Json → String
  | [] => ""
  | x :: xs => ",\n" ++ spaces ind ++ dumpJson ind x ++ dumpArrRest ind xs

/-- Remaining object entries after the first. -/
def dumpObjRest (ind : Nat) : List (String × Json) → String
  | [] => ""
  | kv :: kvs => ",\n" ++ spaces ind ++ dumpEntry ind kv ++ dumpObjRest ind kvs
end

/-- Outcome of one run of set_wallpaper_registry_style: whether OpenKey
succeeded, the (name, REG_SZ value) pairs actually written by SetValueEx in
order, and whether CloseKey ran before the function returned. -/
structure RegResult where
  opened : Bool
  writes : List (String × String)
  closed : Bool
deriving DecidableEq

/-- The if/elif chain of set_wallpaper_registry_style: the SetValueEx calls
attempted for a style name, in source order. A name outside the four branches
attempts no write. -/
def styleWrites (style : String) : List (String × String) :=
  if style = "tile" then [("WallpaperStyle", "0"), ("TileWallpaper", "1")]
  else if style = "center" then [("WallpaperStyle", "0"), ("TileWallpaper", "0")]
  else if style = "stretch" then [("WallpaperStyle", "2"), ("TileWallpaper", "0")]
  else if style = "fill" then [("WallpaperStyle", "10"), ("TileWallpaper", "0")]
  else []

/-- Index of the first SetValueEx call in this invocation that raises, if
any (writeOk i tells whether the i-th call succeeds). -/
def firstFailIdx (n : Nat) (writeOk : Nat → Bool) : Option Nat :=
  (List.range n).find? (fun i => !writeOk i)

/-- set_wallpaper_registry_style: the whole body is inside try/except:pass.
If OpenKey raises, nothing is written and no handle exists. Otherwise the
branch's SetValueEx calls run in order until one raises; the exception jumps
straight to the bare except, so winreg.CloseKey(key) runs only when every
write succeeded. -/
def set_wallpaper_registry_style (style : String) (openOk : Bool) (writeOk : Nat → Bool) :
    RegResult :=
  if !openOk then ⟨false, [], false⟩
  else
    let ws := styleWrites style
    match firstFailIdx ws.length writeOk with
    | none => ⟨true, ws, true⟩
    | some i => ⟨true, ws.take i, false⟩

/-- Index (into the character list) of the last occurrence of a character. -/
def rfindIdx (cs : List Char) (c : Char) : Option Nat :=
  (cs.enum.filterMap (fun p => if p.2 = c then some p.1 else none)).getLast?

/-- Python str.rfind convention: -1 when the character does not occur. -/
def optIdx (o : Option Nat) : Int :=
  match o with
  | none => -1
  | some i => Int.ofNat i

/-- os.path.splitext(p)[1] on Windows paths (ntpath): the extension starts at
the last dot that comes after the last path separator and after at least one
non-dot character of the basename (so dotfiles have no extension). -/
def splitextExt (p : String) : String :=
  let cs := p.data
  let sepIdx := max (optIdx (rfindIdx cs '\\')) (optIdx (rfindIdx cs '/'))
  let dotIdx := optIdx (rfindIdx cs '.')
  if sepIdx < dotIdx then
    if ((List.range dotIdx.toNat).drop (sepIdx + 1).toNat).any
        (fun j => cs.getD j '.' != '.') then
      String.mk (cs.drop dotIdx.toNat)
    else ""
  else ""

/-- Python str.lower() on the ASCII release strings and extensions the
program compares: lowercase every character. -/
def toLowerStr (s : String) : String :=
  String.mk (s.data.map Char.toLower)

/-- The program's environment: the detected OS release string, whether Pillow
imported, the filesystem existence oracle, Python's process-local hash of a
path string, whether the Pillow decode/convert/save pipeline succeeds, the
WALLPAPER_STORE directory, and the outcome oracles for the registry calls. -/
structure Env where
  winRelease : String
  pilAvailable : Bool
  fsExists : String → Bool
  pathHash : String → Int
  convertOk : Bool
  wallpaperStore : String
  regOpenOk : Bool
  regWriteOk : Nat → Bool

/-- convert_to_bmp_if_needed: returns the path to use plus the dialogs shown
and the cache files written. need_bmp holds when "xp" occurs in the lowered
release string; conversion writes WALLPAPER_STORE\abs(hash(src)).bmp. -/
def convert_to_bmp_if_needed (env : Env) (src_path : String) :
    String × List Dialog × List String :=
  let win_release := toLowerStr env.winRelease
  let need_bmp := strContains win_release "xp"
  let ext := toLowerStr (splitextExt src_path)
  if !need_bmp then (src_path, [], [])
  else if ext = ".bmp" then (src_path, [], [])
  else if !env.pilAvailable then (src_path, [Dialog.warning "Pillow Missing"], [])
  else if env.convertOk then
    let bmp_path := env.wallpaperStore ++ "\\" ++ toString (env.pathHash src_path).natAbs ++ ".bmp"
    (bmp_path, [], [bmp_path])
  else (src_path, [Dialog.error "Error"], [])

/-- All externally visible effects of one apply_wallpaper call: dialogs shown
by the conversion step, cache files written, the registry interaction (none
when set_wallpaper_registry_style was never called), and the paths passed to
SystemParametersInfoW. -/
structure Effects where
  dialogs : List Dialog
  cacheWrites : List String
  registry : Option RegResult
  osCalls : List String
deriving DecidableEq

/-- No effect at all. -/
def emptyEffects : Effects :=
  ⟨[], [], none, []⟩

/-- apply_wallpaper: returns False immediately when the path does not exist;
otherwise converts, writes the style registry flags, calls
SystemParametersInfoW(20, 0, final_path, 3) without checking its result, and
returns True. -/
def apply_wallpaper (env : Env) (path style : String) : Bool × Effects :=
  if !env.fsExists path then (false, emptyEffects)
  else
    let c := convert_to_bmp_if_needed env path
    let reg := set_wallpaper_registry_style style env.regOpenOk env.regWriteOk
    (true, ⟨c.2.1, c.2.2, some reg, [c.1]⟩)

/-- Python truthiness of the JSON values self.settings["last_wallpaper"] can
hold: empty string, empty containers, zero, False and None are falsy. -/
def jsonFalsy : Json → Bool
  | Json.null => true
  | Json.bool b => !b
  | Json.num n => n == 0
  | Json.str s => s == ""
  | Json.arr xs => xs.isEmpty
  | Json.obj kvs => kvs.isEmpty

/-- set_wallpaper_registry_style compares its argument against four string
literals; a non-string style value equals none of them in Python, which is
the same as a name outside the table. -/
def styleName : Json → String
  | Json.str s => s
  | _ => "__nonstring__"

/-- Result of one GUI callback run: the in-memory settings afterwards, the
dialogs shown in order, the effects of any apply_wallpaper call, and whether
an uncaught exception escaped the callback (KeyError on a missing settings
key, or applying a non-string path). -/
structure GuiStep where
  settings : List (String × Json)
  dialogs : List Dialog
  effects : Effects
  raised : Bool

/-- Body of WallpaperApp.apply_current: warn and stop when the selected path
is falsy; otherwise call apply_wallpaper with the selected path and style and
show the success dialog only when it returned True. The method never assigns
to self.settings. -/
def apply_currentAux (env : Env) (s : List (String × Json)) : List Dialog × Effects × Bool :=
  match dictGet? s "last_wallpaper" with
  | none => ([], emptyEffects, true)
  | some lw =>
    if jsonFalsy lw then ([Dialog.warning "No File"], emptyEffects, false)
    else
      match dictGet? s "style" with
      | none => ([], emptyEffects, true)
      | some st =>
        match lw with
        | Json.str p =>
          let r := apply_wallpaper env p (styleName st)
          (r.2.dialogs ++ (if r.1 then [Dialog.info "Success"] else []), r.2, false)
        | _ => ([], emptyEffects, true)

/-- WallpaperApp.apply_current as a GUI step; the settings record is passed
through unchanged because the method never writes it. -/
def apply_current (env : Env) (s : List (String × Json)) : GuiStep :=
  let a := apply_currentAux env s
  ⟨s, a.1, a.2.1, a.2.2⟩

/-- WallpaperApp.open_image: askopenfilename returns "" when the user
cancels (falsy, no assignment); otherwise the chosen path is stored under
"last_wallpaper". -/
def open_image (s : List (String × Json)) (picked : String) : List (String × Json) :=
  if picked = "" then s else dictSet s "last_wallpaper" (Json.str picked)

/-- The File menu's Save Settings entry: save_settings(self.settings), which
reads the record and writes the file, leaving the in-memory record alone. -/
def save_settings_menu (s : List (String × Json)) : List (String × Json) × FileState :=
  (s, save_settings (Json.obj s))

/-- WallpaperApp.show_about: one informational dialog, nothing else. -/
def show_about (s : List (String × Json)) : List (String × Json) × Dialog :=
  (s, Dialog.info "About")

/-- WallpaperApp.check_for_updates: the stub dialog, nothing else. -/
def check_for_updates (s : List (String × Json)) : List (String × Json) × Dialog :=
  (s, Dialog.info "Updates")

/-- check_os_compatibility, with platform.release() and the askyesno answer
as inputs: returns the dialogs shown in order and whether startup continues
(false means sys.exit() ran). -/
def check_os_compatibility (release : String) (ans : Bool) : List Dialog × Bool :=
  if (["10", "11"] : List String).contains release then
    if ans then ([Dialog.askYesNo "Unsupported Windows Version", Dialog.info "Continue"], true)
    else ([Dialog.askYesNo "Unsupported Windows Version", Dialog.error "Program Closing"], false)
  else ([Dialog.info "Compatible System"], true)

/-- Module-level startup: the gate terminating means sys.exit() ran before
load_settings and before any GUI construction, so the exited outcome carries
only the gate's dialogs and no settings. -/
inductive StartupResult where
  | exited : List Dialog → StartupResult
  | started : List Dialog → Json → StartupResult

/-- Process start: check_os_compatibility() runs first at module level; only
when it continues does the program reach load_settings (inside
WallpaperApp.__init__) and build the GUI. -/
def startup (release : String) (ans : Bool) (fs : FileState) : StartupResult :=
  let g := check_os_compatibility release ans
  if g.2 then StartupResult.started g.1 (load_settings fs) else StartupResult.exited g.1

/-! ### Helper lemmas on the settings dictionary -/

theorem dictHasKey_append (l t : List (String × Json)) (k : String) :
    dictHasKey (l ++ t) k = (dictHasKey l k || dictHasKey t k) := by
  simp [dictHasKey, List.any_append]

theorem hasKey_backfillStep_self (l : List (String × Json)) (kv : String × Json) :
    dictHasKey (backfillStep l kv) kv.1 = true := by
  unfold backfillStep
  split
  · next h => exact h
  · rw [dictHasKey_append]
    simp [dictHasKey]

theorem hasKey_backfillStep_mono (l : List (String × Json)) (kv : String × Json) (k : String)
    (h : dictHasKey l k = true) : dictHasKey (backfillStep l kv) k = true := by
  unfold backfillStep
  split
  · exact h
  · simp [dictHasKey_append, h]

theorem hasKey_backfillStep_ne (l : List (String × Json)) (kv : String × Json) (k : String)
    (hne : (kv.1 == k) = false) (h : dictHasKey l k = false) :
    dictHasKey (backfillStep l kv) k = false := by
  unfold backfillStep
  split
  · exact h
  · rw [dictHasKey_append, h]
    simp only [dictHasKey, List.any_cons, List.any_nil, Bool.or_false, Bool.false_or]
    exact hne

theorem hasKey_backfillStep_inv (l : List (String × Json)) (kv : String × Json) (k : String)
    (h : dictHasKey (backfillStep l kv) k = true) :
    dictHasKey l k = true ∨ k = kv.1 := by
  unfold backfillStep at h
  split at h
  · exact Or.inl h
  · rw [dictHasKey_append] at h
    rcases Bool.or_eq_true_iff.mp h with h1 | h1
    · exact Or.inl h1
    · right
      have : (kv.1 == k) = true := by simpa [dictHasKey] using h1
      exact (eq_of_beq this).symm

theorem backfillStep_of_hasKey (l : List (String × Json)) (kv : String × Json)
    (h : dictHasKey l kv.1 = true) : backfillStep l kv = l := by
  simp [backfillStep, h]

theorem backfillStep_of_not_hasKey (l : List (String × Json)) (kv : String × Json)
    (h : dictHasKey l kv.1 = false) : backfillStep l kv = l ++ [kv] := by
  simp [backfillStep, h]

theorem backfill_def (l : List (String × Json)) :
    backfill l =
      backfillStep (backfillStep (backfillStep l ("last_wallpaper", Json.str ""))
        ("style", Json.str "stretch")) ("favorites", Json.arr []) := rfl

theorem hasKey_backfill_lw (l : List (String × Json)) :
    dictHasKey (backfill l) "last_wallpaper" = true := by
  rw [backfill_def]
  exact hasKey_backfillStep_mono _ _ _ (hasKey_backfillStep_mono _ _ _
    (hasKey_backfillStep_self l ("last_wallpaper", Json.str "")))

theorem hasKey_backfill_style (l : List (String × Json)) :
    dictHasKey (backfill l) "style" = true := by
  rw [backfill_def]
  exact hasKey_backfillStep_mono _ _ _
    (hasKey_backfillStep_self _ ("style", Json.str "stretch"))

theorem hasKey_backfill_fav (l : List (String × Json)) :
    dictHasKey (backfill l) "favorites" = true := by
  rw [backfill_def]
  exact hasKey_backfillStep_self _ ("favorites", Json.arr [])

theorem backfill_idem (l : List (String × Json)) :
    backfill (backfill l) = backfill l := by
  conv_lhs => rw [backfill_def (backfill l)]
  rw [backfillStep_of_hasKey (backfill l) ("last_wallpaper", Json.str "") (hasKey_backfill_lw l),
    backfillStep_of_hasKey (backfill l) ("style", Json.str "stretch") (hasKey_backfill_style l),
    backfillStep_of_hasKey (backfill l) ("favorites", Json.arr []) (hasKey_backfill_fav l)]

theorem load_settings_stable (f : FileState) :
    load_settings (FileState.content (load_settings f)) = load_settings f := by
  have hbd : backfill DEFAULT_SETTINGS = DEFAULT_SETTINGS := rfl
  have hdef : load_settings (FileState.content (Json.obj DEFAULT_SETTINGS)) =
      Json.obj DEFAULT_SETTINGS := by
    show Json.obj (backfill DEFAULT_SETTINGS) = Json.obj DEFAULT_SETTINGS
    rw [hbd]
  cases f with
  | missing => exact hdef
  | corrupt => exact hdef
  | content j =>
    cases j with
    | null => exact hdef
    | bool b => exact hdef
    | num n => exact hdef
    | str s =>
      by_cases h : allKeysInStr s = true
      · simp [load_settings, h]
      · have h' : allKeysInStr s = false := by simpa using h
        simp only [load_settings, h', if_false, Bool.false_eq_true]
        exact hdef
    | arr xs =>
      by_cases h : allKeysInArr xs = true
      · simp [load_settings, h]
      · have h' : allKeysInArr xs = false := by simpa using h
        simp only [load_settings, h', if_false, Bool.false_eq_true]
        exact hdef
    | obj kvs =>
      show Json.obj (backfill (backfill kvs)) = Json.obj (backfill kvs)
      rw [backfill_idem]

theorem dictGet?_cons (a : String × Json) (l : List (String × Json)) (k : String) :
    dictGet? (a :: l) k = if (a.1 == k) = true then some a.2 else dictGet? l k := by
  unfold dictGet?
  cases hc : (a.1 == k) with
  | true => simp [List.find?, hc]
  | false => simp [List.find?, hc]

theorem dictGet?_append_left (l t : List (String × Json)) (k : String)
    (h : dictHasKey l k = true) : dictGet? (l ++ t) k = dictGet? l k := by
  induction l with
  | nil => simp [dictHasKey] at h
  | cons a l ih =>
    rw [List.cons_append, dictGet?_cons, dictGet?_cons]
    by_cases hc : (a.1 == k) = true
    · rw [if_pos hc, if_pos hc]
    · rw [if_neg hc, if_neg hc]
      apply ih
      have hc' : (a.1 == k) = false := by simpa using hc
      have h0 : ((a.1 == k) || dictHasKey l k) = true := h
      rcases Bool.or_eq_true_iff.mp h0 with h1 | h1
      · exact absurd h1 (by simp [hc'])
      · exact h1

theorem dictGet?_append_right (l t : List (String × Json)) (k : String)
    (h : dictHasKey l k = false) : dictGet? (l ++ t) k = dictGet? t k := by
  induction l with
  | nil => rfl
  | cons a l ih =>
    have h0 : ((a.1 == k) || dictHasKey l k) = false := h
    have hc : (a.1 == k) = false := (Bool.or_eq_false_iff.mp h0).1
    have h' : dictHasKey l k = false := (Bool.or_eq_false_iff.mp h0).2
    rw [List.cons_append, dictGet?_cons, if_neg (by simp [hc])]
    exact ih h'

theorem dictGet?_backfillStep_of_hasKey (l : List (String × Json)) (kv : String × Json)
    (k : String) (h : dictHasKey l k = true) :
    dictGet? (backfillStep l kv) k = dictGet? l k := by
  unfold backfillStep
  split
  · rfl
  · exact dictGet?_append_left l [kv] k h

/-- Fields present in the parsed dict are preserved by the backfill loop. -/
theorem dictGet?_backfill_of_hasKey (l : List (String × Json)) (k : String)
    (h : dictHasKey l k = true) : dictGet? (backfill l) k = dictGet? l k := by
  rw [backfill_def]
  rw [dictGet?_backfillStep_of_hasKey _ _ _ (hasKey_backfillStep_mono _ _ _
    (hasKey_backfillStep_mono _ _ _ h))]
  rw [dictGet?_backfillStep_of_hasKey _ _ _ (hasKey_backfillStep_mono _ _ _ h)]
  exact dictGet?_backfillStep_of_hasKey _ _ _ h

/-- A missing "last_wallpaper" field is backfilled with the default "". -/
theorem dictGet?_backfill_lw_absent (l : List (String × Json))
    (h : dictHasKey l "last_wallpaper" = false) :
    dictGet? (backfill l) "last_wallpaper" = some (Json.str "") := by
  rw [backfill_def,
    backfillStep_of_not_hasKey l ("last_wallpaper", Json.str "") h]
  have h1 : dictHasKey (l ++ [("last_wallpaper", Json.str "")]) "last_wallpaper" = true := by
    rw [dictHasKey_append]
    simp [dictHasKey]
  rw [dictGet?_backfillStep_of_hasKey _ _ _ (hasKey_backfillStep_mono _ _ _ h1),
    dictGet?_backfillStep_of_hasKey _ _ _ h1,
    dictGet?_append_right l _ _ h]
  rfl

/-- A missing "style" field is backfilled with the default "stretch". -/
theorem dictGet?_backfill_style_absent (l : List (String × Json))
    (h : dictHasKey l "style" = false) :
    dictGet? (backfill l) "style" = some (Json.str "stretch") := by
  rw [backfill_def]
  have hx : dictHasKey (backfillStep l ("last_wallpaper", Json.str "")) "style" = false :=
    hasKey_backfillStep_ne l _ _ rfl h
  rw [backfillStep_of_not_hasKey _ ("style", Json.str "stretch") hx]
  have h1 : dictHasKey
      (backfillStep l ("last_wallpaper", Json.str "") ++ [("style", Json.str "stretch")])
      "style" = true := by
    rw [dictHasKey_append]
    simp [dictHasKey]
  rw [dictGet?_backfillStep_of_hasKey _ _ _ h1,
    dictGet?_append_right _ _ _ hx]
  rfl

/-- A missing "favorites" field is backfilled with the default empty list. -/
theorem dictGet?_backfill_fav_absent (l : List (String × Json))
    (h : dictHasKey l "favorites" = false) :
    dictGet? (backfill l) "favorites" = some (Json.arr []) := by
  rw [backfill_def]
  have hx1 : dictHasKey (backfillStep l ("last_wallpaper", Json.str "")) "favorites" = false :=
    hasKey_backfillStep_ne l _ _ rfl h
  have hx2 : dictHasKey (backfillStep (backfillStep l ("last_wallpaper", Json.str ""))
      ("style", Json.str "stretch")) "favorites" = false :=
    hasKey_backfillStep_ne _ _ _ rfl hx1
  rw [backfillStep_of_not_hasKey _ ("favorites", Json.arr []) hx2,
    dictGet?_append_right _ _ _ hx2]
  rfl

/-- The backfill loop introduces no key beyond the parsed dict's keys and the
three default keys. -/
theorem hasKey_backfill_inv (l : List (String × Json)) (k : String)
    (h : dictHasKey (backfill l) k = true) :
    dictHasKey l k = true ∨ k = "last_wallpaper" ∨ k = "style" ∨ k = "favorites" := by
  rw [backfill_def] at h
  rcases hasKey_backfillStep_inv _ _ _ h with h2 | hk
  · rcases hasKey_backfillStep_inv _ _ _ h2 with h3 | hk
    · rcases hasKey_backfillStep_inv _ _ _ h3 with h4 | hk
      · exact Or.inl h4
      · exact Or.inr (Or.inl hk)
    · exact Or.inr (Or.inr (Or.inl hk))
  · exact Or.inr (Or.inr (Or.inr hk))

/-- Assigning one key leaves the value stored under any other key unchanged. -/
theorem dictGet?_dictSet_ne (l : List (String × Json)) (k : String) (v : Json) (k2 : String)
    (hne : k ≠ k2) : dictGet? (dictSet l k v) k2 = dictGet? l k2 := by
  induction l with
  | nil =>
    unfold dictSet
    rw [dictGet?_cons, if_neg (by simp [hne])]
  | cons a l ih =>
    unfold dictSet
    by_cases hc : (a.1 == k) = true
    · rw [if_pos hc, dictGet?_cons, dictGet?_cons, if_neg (by simp [hne])]
      have : a.1 = k := eq_of_beq hc
      rw [if_neg (by simp [this, hne])]
    · rw [if_neg hc, dictGet?_cons, dictGet?_cons]
      by_cases hc2 : (a.1 == k2) = true
      · rw [if_pos hc2, if_pos hc2]
      · rw [if_neg hc2, if_neg hc2]
        exact ih

/-! ### The claims -/

/-- C1: apply_wallpaper(path, style) returns false when the path does not
exist on the filesystem, performing no image normalization, no
configuration-store interaction and no OS background-set call; when the path
exists it returns true, whatever the conversion, registry and OS-call
oracles say, because the OS primitive's own result is never checked. -/
theorem apply_wallpaper_path_check (env : Env) (path style : String) :
    (env.fsExists path = false →
      apply_wallpaper env path style = (false, emptyEffects)) ∧
    (env.fsExists path = true → (apply_wallpaper env path style).1 = true) := by
  constructor
  · intro h
    simp [apply_wallpaper, h]
  · intro h
    simp [apply_wallpaper, h]

/-- C1 witness: a concrete environment without the file, and one with it. -/
theorem apply_wallpaper_path_check_witness :
    apply_wallpaper ⟨"7", true, fun _ => false, fun _ => 0, true, "C:\\wp", true, fun _ => true⟩
        "C:\\a.png" "stretch" = (false, emptyEffects) ∧
    (apply_wallpaper ⟨"7", true, fun _ => true, fun _ => 0, true, "C:\\wp", true, fun _ => true⟩
        "C:\\a.png" "stretch").1 = true :=
  ⟨(apply_wallpaper_path_check _ "C:\\a.png" "stretch").1 rfl,
   (apply_wallpaper_path_check _ "C:\\a.png" "stretch").2 rfl⟩

/-- C2: with a healthy registry, set_wallpaper_registry_style writes exactly
the (WallpaperStyle, TileWallpaper) pair of the fixed table — tile (0,1),
center (0,0), stretch (2,0), fill (10,0) — and any style name outside those
four writes no value at all. -/
theorem set_style_table (s : String) (h1 : s ≠ "tile") (h2 : s ≠ "center")
    (h3 : s ≠ "stretch") (h4 : s ≠ "fill") :
    set_wallpaper_registry_style "tile" true (fun _ => true) =
      ⟨true, [("WallpaperStyle", "0"), ("TileWallpaper", "1")], true⟩ ∧
    set_wallpaper_registry_style "center" true (fun _ => true) =
      ⟨true, [("WallpaperStyle", "0"), ("TileWallpaper", "0")], true⟩ ∧
    set_wallpaper_registry_style "stretch" true (fun _ => true) =
      ⟨true, [("WallpaperStyle", "2"), ("TileWallpaper", "0")], true⟩ ∧
    set_wallpaper_registry_style "fill" true (fun _ => true) =
      ⟨true, [("WallpaperStyle", "10"), ("TileWallpaper", "0")], true⟩ ∧
    set_wallpaper_registry_style s true (fun _ => true) = ⟨true, [], true⟩ := by
  refine ⟨rfl, rfl, rfl, rfl, ?_⟩
  simp [set_wallpaper_registry_style, styleWrites, h1, h2, h3, h4, firstFailIdx]

/-- C2 witness: "mosaic" is outside the table and writes nothing. -/
theorem set_style_table_witness :
    set_wallpaper_registry_style "mosaic" true (fun _ => true) = ⟨true, [], true⟩ :=
  (set_style_table "mosaic" (by decide) (by decide) (by decide) (by decide)).2.2.2.2

/-- C3 counterexample: the claim says a malformed (non-record) readable file
yields exactly the default record. But when json.load returns the JSON string
"last_wallpaper style favorites", every default key passes the `k not in
data` substring test, no assignment ever raises, and load_settings returns
that string itself — neither the default record nor a record at all. -/
theorem load_settings_nonobject_counterexample :
    load_settings (FileState.content (Json.str "last_wallpaper style favorites")) =
      Json.str "last_wallpaper style favorites" ∧
    Json.str "last_wallpaper style favorites" ≠ Json.obj DEFAULT_SETTINGS := by
  refine ⟨rfl, ?_⟩
  intro h
  exact Json.noConfusion h

/-- C3 amended: load_settings never raises; a missing or unreadable file
yields exactly the default record; a file holding a JSON object yields the
stored record with present fields preserved and absent fields backfilled from
the defaults (the spec's own example included); non-object content yields the
default record, except that a string (or array) containing all three field
names as substrings (elements) is returned unchanged. -/
theorem load_settings_amended (kvs : List (String × Json)) (k : String)
    (s : String) (xs : List Json)
    (hk : dictHasKey kvs k = true)
    (hs : allKeysInStr s = false)
    (hx : allKeysInArr xs = false) :
    load_settings FileState.missing = Json.obj DEFAULT_SETTINGS ∧
    load_settings FileState.corrupt = Json.obj DEFAULT_SETTINGS ∧
    load_settings (FileState.content (Json.obj kvs)) = Json.obj (backfill kvs) ∧
    dictGet? (backfill kvs) k = dictGet? kvs k ∧
    (dictHasKey kvs "last_wallpaper" = false →
      dictGet? (backfill kvs) "last_wallpaper" = some (Json.str "")) ∧
    (dictHasKey kvs "style" = false →
      dictGet? (backfill kvs) "style" = some (Json.str "stretch")) ∧
    (dictHasKey kvs "favorites" = false →
      dictGet? (backfill kvs) "favorites" = some (Json.arr [])) ∧
    load_settings (FileState.content (Json.str s)) = Json.obj DEFAULT_SETTINGS ∧
    load_settings (FileState.content (Json.arr xs)) = Json.obj DEFAULT_SETTINGS ∧
    load_settings (FileState.content Json.null) = Json.obj DEFAULT_SETTINGS ∧
    load_settings (FileState.content (Json.obj [("style", Json.str "fill")])) =
      Json.obj [("style", Json.str "fill"), ("last_wallpaper", Json.str ""),
        ("favorites", Json.arr [])] := by
  refine ⟨rfl, rfl, rfl, dictGet?_backfill_of_hasKey kvs k hk,
    dictGet?_backfill_lw_absent kvs, dictGet?_backfill_style_absent kvs,
    dictGet?_backfill_fav_absent kvs, ?_, ?_, rfl, rfl⟩
  · simp [load_settings, hs]
  · simp [load_settings, hx]

/-- C3 amended witness: the spec's own example file, with concrete malformed
companions. -/
theorem load_settings_amended_witness :
    load_settings (FileState.content (Json.obj [("style", Json.str "fill")])) =
      Json.obj [("style", Json.str "fill"), ("last_wallpaper", Json.str ""),
        ("favorites", Json.arr [])] :=
  (load_settings_amended [("style", Json.str "fill")] "style" "abc" [] rfl rfl
    rfl).2.2.2.2.2.2.2.2.2.2

/-- C4: convert_to_bmp_if_needed returns the source path unchanged, with no
dialog and no cache write, whenever the release string does not contain "xp"
(whatever the extension), and also under an "xp" release when the source
already carries the .bmp extension (case-insensitively). -/
theorem convert_noop_cases (env : Env) (src : String) :
    (strContains (toLowerStr env.winRelease) "xp" = false →
      convert_to_bmp_if_needed env src = (src, [], [])) ∧
    (strContains (toLowerStr env.winRelease) "xp" = true →
      toLowerStr (splitextExt src) = ".bmp" →
      convert_to_bmp_if_needed env src = (src, [], [])) := by
  constructor
  · intro h
    simp [convert_to_bmp_if_needed, h]
  · intro h1 h2
    simp [convert_to_bmp_if_needed, h1, h2]

/-- C4 witness: a non-XP release with a .png source, and an XP release with a
.BMP source. -/
theorem convert_noop_cases_witness :
    convert_to_bmp_if_needed
        ⟨"7", false, fun _ => true, fun _ => 0, false, "C:\\wp", true, fun _ => true⟩
        "C:\\a.png" = ("C:\\a.png", [], []) ∧
    convert_to_bmp_if_needed
        ⟨"XP", false, fun _ => true, fun _ => 0, false, "C:\\wp", true, fun _ => true⟩
        "C:\\pic.BMP" = ("C:\\pic.BMP", [], []) :=
  ⟨(convert_noop_cases _ "C:\\a.png").1 (by decide),
   (convert_noop_cases _ "C:\\pic.BMP").2 (by decide) (by decide)⟩

/-- C5: when the detected release is in the too-new set, answering no makes
the process exit at the gate — the result carries only the gate's dialogs,
with load_settings never applied and no GUI constructed — while answering
yes, or any release outside the set, continues into settings load and GUI
startup. -/
theorem startup_gate (release relOther : String) (ans : Bool) (fs : FileState)
    (h : (["10", "11"] : List String).contains release = true)
    (h2 : (["10", "11"] : List String).contains relOther = false) :
    startup release false fs =
      StartupResult.exited [Dialog.askYesNo "Unsupported Windows Version",
        Dialog.error "Program Closing"] ∧
    startup release true fs =
      StartupResult.started [Dialog.askYesNo "Unsupported Windows Version",
        Dialog.info "Continue"] (load_settings fs) ∧
    startup relOther ans fs =
      StartupResult.started [Dialog.info "Compatible System"] (load_settings fs) := by
  refine ⟨?_, ?_, ?_⟩ <;> simp only [startup, check_os_compatibility, h, h2] <;> simp

/-- C5 witness: release "10" with answer no exits, release "7" starts. -/
theorem startup_gate_witness :
    startup "10" false FileState.missing =
      StartupResult.exited [Dialog.askYesNo "Unsupported Windows Version",
        Dialog.error "Program Closing"] ∧
    startup "7" true FileState.missing =
      StartupResult.started [Dialog.info "Compatible System"]
        (load_settings FileState.missing) :=
  ⟨(startup_gate "10" "7" true FileState.missing rfl rfl).1,
   (startup_gate "10" "7" true FileState.missing rfl rfl).2.2⟩

/-- C6: starting from any settings file, save(load()) twice in a row writes
the same file both times — the parsed record is a fixed point of load after
the first save, so the serialized bytes of the second write equal those of
the first. -/
theorem save_load_idempotent (f0 : FileState) :
    save_settings (load_settings (save_settings (load_settings f0))) =
      save_settings (load_settings f0) ∧
    dumpJson 0 (load_settings (save_settings (load_settings f0))) =
      dumpJson 0 (load_settings f0) := by
  have h := load_settings_stable f0
  constructor
  · show FileState.content (load_settings (FileState.content (load_settings f0))) =
      FileState.content (load_settings f0)
    rw [h]
  · show dumpJson 0 (load_settings (FileState.content (load_settings f0))) =
      dumpJson 0 (load_settings f0)
    rw [h]

/-- C7 counterexample: the claim says a selected path that no longer exists
is reported via a warning dialog, like the no-selection case. With a selected
path and a filesystem on which it does not exist, apply_current shows no
dialog at all: apply_wallpaper returns false, the success dialog is skipped,
and no warning branch exists for this case. -/
theorem apply_current_nonexistent_counterexample :
    apply_current
      ⟨"7", true, fun _ => false, fun _ => 0, true, "C:\\wp", true, fun _ => true⟩
      [("last_wallpaper", Json.str "C:\\img.png"), ("style", Json.str "stretch"),
        ("favorites", Json.arr [])] =
      ⟨[("last_wallpaper", Json.str "C:\\img.png"), ("style", Json.str "stretch"),
        ("favorites", Json.arr [])], [], emptyEffects, false⟩ := rfl

/-- C7 amended: with a selected path that does not exist, apply_current
mutates no state and touches neither the configuration store nor the OS, but
fails silently, with no dialog; only the no-image-selected case shows the
"No File" warning dialog. -/
theorem apply_current_missing_silent (env : Env) (s : List (String × Json))
    (p : String) (st : Json)
    (h1 : dictGet? s "last_wallpaper" = some (Json.str p))
    (h2 : p ≠ "")
    (h3 : dictGet? s "style" = some st)
    (h4 : env.fsExists p = false) :
    apply_current env s = ⟨s, [], emptyEffects, false⟩ ∧
    (∀ s2 : List (String × Json), dictGet? s2 "last_wallpaper" = some (Json.str "") →
      apply_current env s2 = ⟨s2, [Dialog.warning "No File"], emptyEffects, false⟩) := by
  constructor
  · have hf : jsonFalsy (Json.str p) = false := by
      simp only [jsonFalsy, beq_eq_false_iff_ne, ne_eq]
      exact h2
    simp [apply_current, apply_currentAux, h1, h3, hf, apply_wallpaper, h4, emptyEffects]
  · intro s2 hs2
    simp [apply_current, apply_currentAux, hs2, jsonFalsy, emptyEffects]

/-- C7 amended witness: a concrete record and a filesystem without the file. -/
theorem apply_current_missing_silent_witness :
    apply_current
      ⟨"8", true, fun _ => false, fun _ => 0, true, "C:\\wp", true, fun _ => true⟩
      [("last_wallpaper", Json.str "C:\\b.png"), ("style", Json.str "fill"),
        ("favorites", Json.arr [])] =
      ⟨[("last_wallpaper", Json.str "C:\\b.png"), ("style", Json.str "fill"),
        ("favorites", Json.arr [])], [], emptyEffects, false⟩ :=
  (apply_current_missing_silent
    ⟨"8", true, fun _ => false, fun _ => 0, true, "C:\\wp", true, fun _ => true⟩
    [("last_wallpaper", Json.str "C:\\b.png"), ("style", Json.str "fill"),
      ("favorites", Json.arr [])]
    "C:\\b.png" (Json.str "fill") rfl (by decide) rfl rfl).1

/-- C8 (evaluating the code at the failing input): when the first SetValueEx
of the "tile" branch raises, the exception jumps to the bare except before
winreg.CloseKey runs — the handle was opened but is never closed, violating
the close-on-every-exit-path requirement. -/
theorem set_style_write_failure_leaks_handle :
    set_wallpaper_registry_style "tile" true (fun _ => false) = ⟨true, [], false⟩ := rfl

/-- C9 counterexample: a settings file whose record carries a fourth key
"extra" round-trips through load_settings unchanged (backfill only adds
missing model keys), so save_settings writes a file with four fields, not
exactly the three of the data model. -/
theorem save_extra_key_counterexample :
    save_settings (load_settings (FileState.content (Json.obj
      [("last_wallpaper", Json.str "a"), ("style", Json.str "fill"),
        ("favorites", Json.arr []), ("extra", Json.bool true)]))) =
      FileState.content (Json.obj
        [("last_wallpaper", Json.str "a"), ("style", Json.str "fill"),
          ("favorites", Json.arr []), ("extra", Json.bool true)]) ∧
    dictHasKey [("last_wallpaper", Json.str "a"), ("style", Json.str "fill"),
        ("favorites", Json.arr []), ("extra", Json.bool true)] "extra" = true ∧
    dictHasKey DEFAULT_SETTINGS "extra" = false :=
  ⟨rfl, rfl, rfl⟩

/-- C9 amended: every record save_settings writes for a load of an object
file contains at least the three model fields; keys outside the three are
exactly those already present in the loaded file (preserved, not dropped), so
the saved file holds the loaded keys plus the backfilled model keys rather
than exactly three fields. -/
theorem save_keys_characterization (kvs : List (String × Json)) (k : String) :
    dictHasKey (backfill kvs) "last_wallpaper" = true ∧
    dictHasKey (backfill kvs) "style" = true ∧
    dictHasKey (backfill kvs) "favorites" = true ∧
    (dictHasKey kvs k = true → dictHasKey (backfill kvs) k = true) ∧
    (dictHasKey (backfill kvs) k = true →
      dictHasKey kvs k = true ∨ k = "last_wallpaper" ∨ k = "style" ∨ k = "favorites") ∧
    save_settings (load_settings (FileState.content (Json.obj kvs))) =
      FileState.content (Json.obj (backfill kvs)) := by
  refine ⟨hasKey_backfill_lw kvs, hasKey_backfill_style kvs, hasKey_backfill_fav kvs,
    ?_, hasKey_backfill_inv kvs k, rfl⟩
  intro h
  rw [backfill_def]
  exact hasKey_backfillStep_mono _ _ _ (hasKey_backfillStep_mono _ _ _
    (hasKey_backfillStep_mono _ _ _ h))

/-- C9 amended witness: a loaded extra key survives the backfill. -/
theorem save_keys_characterization_witness :
    dictHasKey (backfill [("extra2", Json.null)]) "extra2" = true :=
  (save_keys_characterization [("extra2", Json.null)] "extra2").2.2.2.1 rfl

/-- C10: no GUI action modifies the favorites field of the in-memory record:
open_image only reassigns "last_wallpaper", apply_current passes the record
through untouched, and the save/about/check-updates actions leave it alone,
so favorites is always the default empty list or whatever load produced. -/
theorem gui_preserves_favorites (env : Env) (s : List (String × Json)) (picked : String) :
    dictGet? (open_image s picked) "favorites" = dictGet? s "favorites" ∧
    (apply_current env s).settings = s ∧
    (save_settings_menu s).1 = s ∧
    (show_about s).1 = s ∧
    (check_for_updates s).1 = s := by
  refine ⟨?_, rfl, rfl, rfl, rfl⟩
  unfold open_image
  split
  · rfl
  · exact dictGet?_dictSet_ne s "last_wallpaper" (Json.str picked) "favorites" (by decide)

end WallpaperApp
